import Mathlib

/-!
Shallow embedding of the build orchestration in `setup.py` of the pythonnet
repository, together with theorems checking the natural-language specification
against it.

The orchestrator (class `PythonNET_BuildExt` and friends) is modelled as pure
Lean functions over an explicit environment `Env` that supplies everything the
script reads from the outside world: exit codes and captured outputs of
external process invocations, the directory listing of `src`, which
`packages.config` manifests exist, host interpreter characteristics
(`sys.version_info`, `sys.maxunicode`), and the names of files produced by the
external build steps.  Each run produces, besides its result fields, the
ordered list of external invocations that were attempted (`trace`).
-/

namespace PythonNet

/-- `CONFIG = "Release"` (setup.py line 17). -/
def CONFIG : String := "Release"

/-- `VERBOSITY = "minimal"` (setup.py line 19). -/
def VERBOSITY : String := "minimal"

/-- The two toolchain variants: `DEVTOOLS` is `"MsDev"` on win32 (the Primary
variant of the spec) and `"Mono"` elsewhere (the Alternate variant). -/
inductive DevTools
  | MsDev
  | Mono
deriving DecidableEq, Repr

/-- `DEVTOOLS = "MsDev" if sys.platform == "win32" else "Mono"` (line 18). -/
def devtoolsOf (sysPlatform : String) : DevTools :=
  if sysPlatform = "win32" then DevTools.MsDev else DevTools.Mono

/-- `PLATFORM = "x64" if architecture()[0] == "64bit" else "x86"` (line 20). -/
def platformOf (arch0 : String) : String :=
  if arch0 = "64bit" then "x64" else "x86"

/-- `_xbuild` (lines 60/66): the quoted msbuild path on MsDev (the path itself
comes from the Windows registry, hence is an input here), `"xbuild"` on Mono. -/
def xbuild (msbuildPath : String) : DevTools → String
  | DevTools.MsDev => "\"" ++ msbuildPath ++ "\""
  | DevTools.Mono => "xbuild"

/-- `_defines_sep` (lines 61/67). -/
def definesSep : DevTools → String
  | DevTools.MsDev => ";"
  | DevTools.Mono => ","

/-- `_config` (lines 62/68): `"%sWin" % CONFIG` resp. `"%sMono" % CONFIG`. -/
def configName : DevTools → String
  | DevTools.MsDev => CONFIG ++ "Win"
  | DevTools.Mono => CONFIG ++ "Mono"

/-- `_npython_exe` (lines 63/69). -/
def npythonExe : DevTools → String
  | DevTools.MsDev => "nPython.exe"
  | DevTools.Mono => "npython"

/-- The platform path separator used by `os.path.join`; the process runs on
win32 exactly when the MsDev variant is selected. -/
def pathSep : DevTools → String
  | DevTools.MsDev => "\\"
  | DevTools.Mono => "/"

/-- One external process invocation, identified by the parameters the script
passes to it. -/
inductive Invocation
  | restore (manifestPath : String) (packagesDir : String)
  | buildTool (target : String) (cfg : String) (platform : String)
      (defines : String) (outputDir : String) (verbosity : String)
  | pkgConfig (flag : String) (lib : String)
deriving DecidableEq, Repr

/-- `subprocess.CalledProcessError`: exit code, the command line, and the
captured output when one was captured (`check_output` attaches it,
`check_call` does not). -/
structure CalledProcessError where
  returncode : Nat
  cmd : String
  output : Option String
deriving DecidableEq, Repr

/-- Everything the script reads from the outside world. -/
structure Env where
  /-- Exit code of each external invocation (0 = success). -/
  exitCode : Invocation → Nat
  /-- Captured stdout of each external invocation. -/
  out : Invocation → String
  /-- `_find_msbuild_path()` result (from the Windows registry). -/
  msbuildPath : String
  /-- `os.listdir("src")` (line 178). -/
  srcDirs : List String
  /-- `os.path.exists` for manifest paths (line 185). -/
  hasManifest : String → Bool
  /-- `sys.version_info[0]`. -/
  pyMajor : Nat
  /-- `sys.version_info[1]`. -/
  pyMinor : Nat
  /-- `sys.maxunicode`. -/
  maxunicode : Nat
  /-- `PLATFORM` (line 20). -/
  platform : String
  /-- `os.path.abspath(dest_dir)` for the clr extension (lines 87-88, 106). -/
  destDirAbs : String
  /-- Files present in the build output directory before the solution build. -/
  outDirFiles0 : List String
  /-- Files the external solution Build target writes into the output dir. -/
  solutionOutputs : List String
  /-- Basename of `get_ext_fullpath("clr")`, the extension module file the
  monoclr module build produces. -/
  clrModuleFile : String
  /-- `get_config_vars("BLDLIBRARY")[0]` (line 157). -/
  bldLibrary : String

/-- `subprocess.check_call(cmd)` (lines 112, 113, 190): blocks, inspects the
exit status, and on a non-zero exit raises `CalledProcessError(retcode, cmd)`
— without capturing the tool's output. -/
def check_call (env : Env) (inv : Invocation) (cmd : String) :
    Except CalledProcessError Unit :=
  if env.exitCode inv = 0 then Except.ok ()
  else Except.error { returncode := env.exitCode inv, cmd := cmd, output := none }

/-- `_check_output` (setup.py lines 228-241): captures stdout, and on a
non-zero exit raises `CalledProcessError(retcode, cmd, output=output)` — with
the captured output attached. -/
def check_output (env : Env) (inv : Invocation) (cmd : String) :
    Except CalledProcessError String :=
  if env.exitCode inv = 0 then Except.ok (env.out inv)
  else Except.error { returncode := env.exitCode inv, cmd := cmd,
                      output := some (env.out inv) }

/-- The nuget command head (lines 172-175): `tools/nuget/nuget.exe`, run
through `mono` on the Mono variant. -/
def nugetTool (dt : DevTools) : String :=
  let nuget := "tools" ++ pathSep dt ++ "nuget" ++ pathSep dt ++ "nuget.exe"
  match dt with
  | DevTools.Mono => "mono " ++ nuget
  | DevTools.MsDev => nuget

/-- `os.path.join("src", dir, "packages.config")` (line 184). -/
def manifestPath (dt : DevTools) (dir : String) : String :=
  "src" ++ pathSep dt ++ dir ++ pathSep dt ++ "packages.config"

/-- The full nuget restore command line (line 188). -/
def nugetCmdStr (dt : DevTools) (dir : String) : String :=
  nugetTool dt ++ " install " ++ manifestPath dt dir ++ " -o packages"

/-- The two `continue` guards of `_install_packages` (lines 179-182): under
Mono skip `clrmodule`, otherwise skip `monoclr`. -/
def skipDir (dt : DevTools) (dir : String) : Bool :=
  match dt with
  | DevTools.Mono => dir == "clrmodule"
  | DevTools.MsDev => dir == "monoclr"

/-- The loop body of `_install_packages` (lines 178-190) over the remaining
directory names: returns the restore invocations attempted, in order, and the
error of the first failing one, which aborts the loop. -/
def installPackagesGo (env : Env) (dt : DevTools) :
    List String → List Invocation × Option CalledProcessError
  | [] => ([], none)
  | d :: ds =>
    if skipDir dt d then installPackagesGo env dt ds
    else if !(env.hasManifest (manifestPath dt d)) then installPackagesGo env dt ds
    else
      let inv := Invocation.restore (manifestPath dt d) "packages"
      match check_call env inv (nugetCmdStr dt d) with
      | Except.ok _ =>
        let r := installPackagesGo env dt ds
        (inv :: r.1, r.2)
      | Except.error e => ([inv], some e)

/-- `_install_packages` (lines 170-190). -/
def installPackages (env : Env) (dt : DevTools) :
    List Invocation × Option CalledProcessError :=
  installPackagesGo env dt env.srcDirs

/-- The `defines` list (lines 92-98): the `PYTHON<major><minor>` token, then
the unicode-width token; extended with `DEBUG`/`TRACE` only when `CONFIG` is
`"Debug"` (it is fixed to `"Release"`). -/
def definesList (env : Env) : List String :=
  let base := ["PYTHON" ++ toString env.pyMajor ++ toString env.pyMinor,
               if env.maxunicode < 0x10FFFF then "UCS2" else "UCS4"]
  if CONFIG = "Debug" then base ++ ["DEBUG", "TRACE"] else base

/-- The shared `cmd` list of the solution build (lines 100-108). -/
def buildCmd (env : Env) (dt : DevTools) : List String :=
  [xbuild env.msbuildPath dt,
   "pythonnet.sln",
   "/p:Configuration=" ++ configName dt,
   "/p:Platform=" ++ env.platform,
   "/p:DefineConstants=\"" ++ String.intercalate (definesSep dt) (definesList env) ++ "\"",
   "/p:PythonBuildDir=" ++ env.destDirAbs,
   "/verbosity:" ++ VERBOSITY]

/-- The build-tool invocation with target `/t:<target>` appended (lines
112-113); both targets share every other parameter. -/
def buildToolInv (env : Env) (dt : DevTools) (target : String) : Invocation :=
  Invocation.buildTool target (configName dt) env.platform
    (String.intercalate (definesSep dt) (definesList env)) env.destDirAbs VERBOSITY

/-- `" ".join(cmd + ["/t:<target>"])` (lines 112-113). -/
def buildCmdStr (env : Env) (dt : DevTools) (target : String) : String :=
  String.intercalate " " (buildCmd env dt ++ ["/t:" ++ target])

/-- The pkg-config command line (lines 120-123). -/
def pkgConfigCmd (flag lib : String) : String :=
  "pkg-config " ++ flag ++ " " ++ lib

/-- Result of `_build_monoclr`. -/
structure MonoclrResult where
  /-- pkg-config invocations attempted, in order. -/
  trace : List Invocation
  /-- The error of the first failing query, if any. -/
  error : Option CalledProcessError
  /-- `cflags` (line 124), when all queries succeeded. -/
  cflags : Option String
  /-- `libs` (line 125), when all queries succeeded. -/
  libs : Option String
  /-- Extra link arguments of the executable link step (line 158). -/
  execLinkArgs : Option String
  /-- Files the module build and executable link write into the output dir. -/
  wrote : List String
deriving Repr

/-- `_build_monoclr` (lines 119-167): four pkg-config queries in source order
(mono-2 libs, mono-2 cflags, glib-2.0 libs, glib-2.0 cflags), each captured
output stripped, concatenated per category with a single space, mono before
glib; then the clr module build and the npython executable link, which write
into the extension output directory. -/
def build_monoclr (env : Env) : MonoclrResult :=
  let i1 := Invocation.pkgConfig "--libs" "mono-2"
  let i2 := Invocation.pkgConfig "--cflags" "mono-2"
  let i3 := Invocation.pkgConfig "--libs" "glib-2.0"
  let i4 := Invocation.pkgConfig "--cflags" "glib-2.0"
  match check_output env i1 (pkgConfigCmd "--libs" "mono-2") with
  | Except.error e =>
    { trace := [i1], error := some e, cflags := none, libs := none,
      execLinkArgs := none, wrote := [] }
  | Except.ok monoLibs =>
  match check_output env i2 (pkgConfigCmd "--cflags" "mono-2") with
  | Except.error e =>
    { trace := [i1, i2], error := some e, cflags := none, libs := none,
      execLinkArgs := none, wrote := [] }
  | Except.ok monoCflags =>
  match check_output env i3 (pkgConfigCmd "--libs" "glib-2.0") with
  | Except.error e =>
    { trace := [i1, i2, i3], error := some e, cflags := none, libs := none,
      execLinkArgs := none, wrote := [] }
  | Except.ok glibLibs =>
  match check_output env i4 (pkgConfigCmd "--cflags" "glib-2.0") with
  | Except.error e =>
    { trace := [i1, i2, i3, i4], error := some e, cflags := none, libs := none,
      execLinkArgs := none, wrote := [] }
  | Except.ok glibCflags =>
    let cflags := monoCflags.trim ++ " " ++ glibCflags.trim
    let libs := monoLibs.trim ++ " " ++ glibLibs.trim
    { trace := [i1, i2, i3, i4], error := none,
      cflags := some cflags, libs := some libs,
      execLinkArgs := some (libs ++ " " ++ env.bldLibrary),
      wrote := [env.clrModuleFile, npythonExe DevTools.Mono] }

/-- Observable result of one `build_extension` run. -/
structure BuildResult where
  /-- `True` when the run fell through to the stock
  `build_ext.build_extension` (line 82). -/
  stockDelegated : Bool
  /-- External invocations attempted, in order. -/
  trace : List Invocation
  /-- The error of the first failing invocation, if any. -/
  error : Option CalledProcessError
  /-- `True` when `_build_monoclr` was entered (line 116). -/
  monoclrRan : Bool
  /-- Contents of the build output directory at the end of the run. -/
  outDirFiles : List String
deriving Repr

/-- The orchestration steps of `build_extension` once restore has succeeded
(lines 100-116): Clean, then Build, then — on the Mono variant only —
`_build_monoclr`. -/
def afterRestore (env : Env) (dt : DevTools) (invs : List Invocation) : BuildResult :=
  let cInv := buildToolInv env dt "Clean"
  let bInv := buildToolInv env dt "Build"
  match check_call env cInv (buildCmdStr env dt "Clean") with
  | Except.error e =>
    { stockDelegated := false, trace := invs ++ [cInv], error := some e,
      monoclrRan := false, outDirFiles := env.outDirFiles0 }
  | Except.ok _ =>
  match check_call env bInv (buildCmdStr env dt "Build") with
  | Except.error e =>
    { stockDelegated := false, trace := invs ++ [cInv, bInv], error := some e,
      monoclrRan := false, outDirFiles := env.outDirFiles0 }
  | Except.ok _ =>
    let filesAfterBuild := env.outDirFiles0 ++ env.solutionOutputs
    match dt with
    | DevTools.MsDev =>
      { stockDelegated := false, trace := invs ++ [cInv, bInv], error := none,
        monoclrRan := false, outDirFiles := filesAfterBuild }
    | DevTools.Mono =>
      let m := build_monoclr env
      { stockDelegated := false, trace := (invs ++ [cInv, bInv]) ++ m.trace,
        error := m.error, monoclrRan := true,
        outDirFiles := filesAfterBuild ++ m.wrote }

/-- The orchestration for the `clr` extension (lines 84-116): nuget restore
first, aborting on its error, then the solution build steps. -/
def build_clr (env : Env) (dt : DevTools) : BuildResult :=
  match installPackages env dt with
  | (invs, some e) =>
    { stockDelegated := false, trace := invs, error := some e,
      monoclrRan := false, outDirFiles := env.outDirFiles0 }
  | (invs, none) => afterRestore env dt invs

/-- `PythonNET_BuildExt.build_extension` (lines 77-116): any extension other
than `clr` is delegated untouched to the stock builder (lines 81-82). -/
def build_extension (env : Env) (dt : DevTools) (extName : String) : BuildResult :=
  if extName ≠ "clr" then
    { stockDelegated := true, trace := [], error := none, monoclrRan := false,
      outDirFiles := env.outDirFiles0 }
  else build_clr env dt

/-- Glob-style name matching as Python `glob`/`fnmatch` performs it for
patterns built from literal characters and `*` (the only metacharacter the
two installer patterns use): `*` matches any, possibly empty, character run. -/
def globStar : List Char → List Char → Bool
  | [], s => s.isEmpty
  | '*' :: ps, s => s.tails.any (fun t => globStar ps t)
  | _ :: _, [] => false
  | p :: ps, c :: cs => p == c && globStar ps cs

/-- A filename matches a glob pattern. -/
def globMatch (pattern s : String) : Bool :=
  globStar pattern.toList s.toList

/-- The two fixed installer patterns (line 205). -/
def installPatterns : List String := ["clr.*", "Python.Runtime.*"]

/-- The nested copy loop of `PythonNET_InstallLib.install` (lines 205-208):
for each pattern in order, every matching file of the build directory is
copied, keeping its basename. -/
def copiedFiles (patterns : List String) (files : List String) : List String :=
  match patterns with
  | [] => []
  | p :: ps => files.filter (fun f => globMatch p f) ++ copiedFiles ps files

/-- Observable result of `PythonNET_InstallLib.install`. -/
structure InstallResult where
  /-- `True` when the missing-directory warning was issued (line 197). -/
  warned : Bool
  /-- `True` when `mkpath` created the install directory (line 202). -/
  createdInstallDir : Bool
  /-- Basenames of the files copied into the install directory, in order. -/
  copied : List String
deriving DecidableEq, Repr

/-- `PythonNET_InstallLib.install` (lines 195-208): a missing build directory
is only warned about and nothing is copied nor created; otherwise the install
directory is created when absent and exactly the pattern matches are copied. -/
def install (buildDirExists : Bool) (installDirExists : Bool)
    (buildDirFiles : List String) : InstallResult :=
  if !buildDirExists then
    { warned := true, createdInstallDir := false, copied := [] }
  else
    { warned := false,
      createdInstallDir := !installDirExists,
      copied := copiedFiles installPatterns buildDirFiles }

/-- `PythonNET_BuildScripts.finalize_options` (lines 213-225): each script
whose name exists as a file in the build output directory is replaced by the
joined path inside that directory, every other script is kept unchanged; the
loop only tests existence. -/
def fixupScripts (sep : String) (outputDir : String) (outDirContents : List String)
    (scripts : List String) : List String :=
  scripts.map (fun script =>
    if outDirContents.contains script then outputDir ++ sep ++ script else script)


/-- Classifier for solution-build-tool invocations in a trace. -/
def isBuildToolInv : Invocation → Bool
  | Invocation.buildTool _ _ _ _ _ _ => true
  | _ => false

theorem isBuildToolInv_buildToolInv (env : Env) (dt : DevTools) (t : String) :
    isBuildToolInv (buildToolInv env dt t) = true := rfl

theorem definesList_eq (env : Env) :
    definesList env
      = ["PYTHON" ++ toString env.pyMajor ++ toString env.pyMinor,
         if env.maxunicode < 0x10FFFF then "UCS2" else "UCS4"] := by
  simp [definesList, CONFIG]

theorem installPackagesGo_all_ok (env : Env) (dt : DevTools)
    (h : ∀ d, env.exitCode (Invocation.restore (manifestPath dt d) "packages") = 0)
    (ds : List String) :
    installPackagesGo env dt ds
      = ((ds.filter (fun d => !skipDir dt d && env.hasManifest (manifestPath dt d))).map
          (fun d => Invocation.restore (manifestPath dt d) "packages"), none) := by
  induction ds with
  | nil => rfl
  | cons d ds ih =>
    by_cases hs : skipDir dt d = true
    · simpa [installPackagesGo, hs] using ih
    · by_cases hm : env.hasManifest (manifestPath dt d) = true
      · simp [installPackagesGo, hs, hm, check_call, h d, ih]
      · simpa [installPackagesGo, hs, hm] using ih

theorem installPackagesGo_no_buildTool (env : Env) (dt : DevTools) (ds : List String) :
    (installPackagesGo env dt ds).1.filter isBuildToolInv = [] := by
  induction ds with
  | nil => rfl
  | cons d ds ih =>
    by_cases hs : skipDir dt d = true
    · simpa [installPackagesGo, hs] using ih
    · by_cases hm : env.hasManifest (manifestPath dt d) = true
      · by_cases hz : env.exitCode (Invocation.restore (manifestPath dt d) "packages") = 0
        · simp [installPackagesGo, hs, hm, check_call, hz, isBuildToolInv, ih]
        · simp [installPackagesGo, hs, hm, check_call, hz, isBuildToolInv]
      · simpa [installPackagesGo, hs, hm] using ih

theorem build_clr_of_restore_ok (env : Env) (dt : DevTools)
    (hr : (installPackages env dt).2 = none) :
    build_clr env dt = afterRestore env dt (installPackages env dt).1 := by
  rcases hp : installPackages env dt with ⟨invs, err⟩
  rw [hp] at hr
  simp at hr
  subst hr
  unfold build_clr
  rw [hp]

theorem build_clr_of_restore_err (env : Env) (dt : DevTools) (e : CalledProcessError)
    (hr : (installPackages env dt).2 = some e) :
    build_clr env dt
      = { stockDelegated := false, trace := (installPackages env dt).1, error := some e,
          monoclrRan := false, outDirFiles := env.outDirFiles0 } := by
  rcases hp : installPackages env dt with ⟨invs, err⟩
  rw [hp] at hr
  simp at hr
  subst hr
  unfold build_clr
  rw [hp]

theorem afterRestore_clean_fail (env : Env) (dt : DevTools) (invs : List Invocation)
    (h : env.exitCode (buildToolInv env dt "Clean") ≠ 0) :
    afterRestore env dt invs
      = { stockDelegated := false, trace := invs ++ [buildToolInv env dt "Clean"],
          error := some { returncode := env.exitCode (buildToolInv env dt "Clean"),
                          cmd := buildCmdStr env dt "Clean", output := none },
          monoclrRan := false, outDirFiles := env.outDirFiles0 } := by
  unfold afterRestore check_call
  simp [h]

theorem afterRestore_build_fail (env : Env) (dt : DevTools) (invs : List Invocation)
    (hc : env.exitCode (buildToolInv env dt "Clean") = 0)
    (hb : env.exitCode (buildToolInv env dt "Build") ≠ 0) :
    afterRestore env dt invs
      = { stockDelegated := false,
          trace := invs ++ [buildToolInv env dt "Clean", buildToolInv env dt "Build"],
          error := some { returncode := env.exitCode (buildToolInv env dt "Build"),
                          cmd := buildCmdStr env dt "Build", output := none },
          monoclrRan := false, outDirFiles := env.outDirFiles0 } := by
  unfold afterRestore check_call
  simp [hc, hb]

theorem afterRestore_ok_msdev (env : Env) (invs : List Invocation)
    (hc : env.exitCode (buildToolInv env DevTools.MsDev "Clean") = 0)
    (hb : env.exitCode (buildToolInv env DevTools.MsDev "Build") = 0) :
    afterRestore env DevTools.MsDev invs
      = { stockDelegated := false,
          trace := invs ++ [buildToolInv env DevTools.MsDev "Clean",
                            buildToolInv env DevTools.MsDev "Build"],
          error := none, monoclrRan := false,
          outDirFiles := env.outDirFiles0 ++ env.solutionOutputs } := by
  unfold afterRestore check_call
  simp [hc, hb]

theorem afterRestore_ok_mono (env : Env) (invs : List Invocation)
    (hc : env.exitCode (buildToolInv env DevTools.Mono "Clean") = 0)
    (hb : env.exitCode (buildToolInv env DevTools.Mono "Build") = 0) :
    afterRestore env DevTools.Mono invs
      = { stockDelegated := false,
          trace := (invs ++ [buildToolInv env DevTools.Mono "Clean",
                             buildToolInv env DevTools.Mono "Build"]) ++ (build_monoclr env).trace,
          error := (build_monoclr env).error, monoclrRan := true,
          outDirFiles := (env.outDirFiles0 ++ env.solutionOutputs) ++ (build_monoclr env).wrote } := by
  unfold afterRestore check_call
  simp [hc, hb]

theorem build_monoclr_ok (env : Env)
    (h1 : env.exitCode (Invocation.pkgConfig "--libs" "mono-2") = 0)
    (h2 : env.exitCode (Invocation.pkgConfig "--cflags" "mono-2") = 0)
    (h3 : env.exitCode (Invocation.pkgConfig "--libs" "glib-2.0") = 0)
    (h4 : env.exitCode (Invocation.pkgConfig "--cflags" "glib-2.0") = 0) :
    build_monoclr env
      = { trace := [Invocation.pkgConfig "--libs" "mono-2",
                    Invocation.pkgConfig "--cflags" "mono-2",
                    Invocation.pkgConfig "--libs" "glib-2.0",
                    Invocation.pkgConfig "--cflags" "glib-2.0"],
          error := none,
          cflags := some ((env.out (Invocation.pkgConfig "--cflags" "mono-2")).trim ++ " "
              ++ (env.out (Invocation.pkgConfig "--cflags" "glib-2.0")).trim),
          libs := some ((env.out (Invocation.pkgConfig "--libs" "mono-2")).trim ++ " "
              ++ (env.out (Invocation.pkgConfig "--libs" "glib-2.0")).trim),
          execLinkArgs := some ((env.out (Invocation.pkgConfig "--libs" "mono-2")).trim ++ " "
              ++ (env.out (Invocation.pkgConfig "--libs" "glib-2.0")).trim ++ " " ++ env.bldLibrary),
          wrote := [env.clrModuleFile, npythonExe DevTools.Mono] } := by
  unfold build_monoclr check_output
  simp [h1, h2, h3, h4]

theorem monoclr_trace_no_buildTool (env : Env) :
    (build_monoclr env).trace.filter isBuildToolInv = [] := by
  unfold build_monoclr check_output
  by_cases h1 : env.exitCode (Invocation.pkgConfig "--libs" "mono-2") = 0 <;>
    by_cases h2 : env.exitCode (Invocation.pkgConfig "--cflags" "mono-2") = 0 <;>
      by_cases h3 : env.exitCode (Invocation.pkgConfig "--libs" "glib-2.0") = 0 <;>
        by_cases h4 : env.exitCode (Invocation.pkgConfig "--cflags" "glib-2.0") = 0 <;>
          simp [h1, h2, h3, h4, isBuildToolInv]

theorem trace_filter_buildTool (env : Env) (dt : DevTools) :
    (build_extension env dt "clr").trace.filter isBuildToolInv
      = if (installPackages env dt).2 = none then
          (if env.exitCode (buildToolInv env dt "Clean") = 0
           then [buildToolInv env dt "Clean", buildToolInv env dt "Build"]
           else [buildToolInv env dt "Clean"])
        else [] := by
  have hne : ¬ ("clr" ≠ "clr") := by simp
  rw [build_extension, if_neg hne]
  rcases hp : (installPackages env dt).2 with _ | e
  · rw [build_clr_of_restore_ok env dt hp, if_pos rfl]
    by_cases hc : env.exitCode (buildToolInv env dt "Clean") = 0
    · cases dt with
      | MsDev =>
        by_cases hb : env.exitCode (buildToolInv env DevTools.MsDev "Build") = 0
        · rw [afterRestore_ok_msdev env _ hc hb]
          simp [hc, List.filter_append, installPackagesGo_no_buildTool, installPackages,
                isBuildToolInv_buildToolInv]
        · rw [afterRestore_build_fail env DevTools.MsDev _ hc hb]
          simp [hc, List.filter_append, installPackagesGo_no_buildTool, installPackages,
                isBuildToolInv_buildToolInv]
      | Mono =>
        by_cases hb : env.exitCode (buildToolInv env DevTools.Mono "Build") = 0
        · rw [afterRestore_ok_mono env _ hc hb]
          simp [hc, List.filter_append, installPackagesGo_no_buildTool, installPackages,
                isBuildToolInv_buildToolInv, monoclr_trace_no_buildTool]
        · rw [afterRestore_build_fail env DevTools.Mono _ hc hb]
          simp [hc, List.filter_append, installPackagesGo_no_buildTool, installPackages,
                isBuildToolInv_buildToolInv]
    · rw [afterRestore_clean_fail env dt _ hc]
      simp [hc, List.filter_append, installPackagesGo_no_buildTool, installPackages,
            isBuildToolInv_buildToolInv]
  · rw [build_clr_of_restore_err env dt e hp, if_neg (by simp)]
    simpa [installPackages] using installPackagesGo_no_buildTool env dt env.srcDirs



/-- A baseline environment in which every external invocation succeeds. -/
def envBase : Env :=
  { exitCode := fun _ => 0, out := fun _ => "", msbuildPath := "m",
    srcDirs := [], hasManifest := fun _ => true, pyMajor := 2, pyMinor := 7,
    maxunicode := 65535, platform := "x86", destDirAbs := "o",
    outDirFiles0 := ["old.txt"], solutionOutputs := ["Python.Runtime.dll"],
    clrModuleFile := "clr.so", bldLibrary := "-lpython2.7" }

/-- An environment whose build tool fails on the Clean target with exit code 1
while printing "boom". -/
def envC1 : Env :=
  { envBase with
    exitCode := fun inv =>
      match inv with
      | Invocation.buildTool "Clean" _ _ _ _ _ => 1
      | _ => 0,
    out := fun _ => "boom" }

/-- C1: (corrected) with package restore succeeding, the solution build invokes
the external build tool with target Clean first and target Build second — both
invocations sharing configuration name, platform, joined defines, output
directory and verbosity — and when the Clean invocation exits non-zero the
Build invocation is never attempted and the surfaced error is a
CalledProcessError carrying the exit code and the command line, with no
captured tool output (check_call does not capture output). -/
theorem C1_clean_then_build (env : Env) (dt : DevTools)
    (hr : (installPackages env dt).2 = none) :
    ((build_extension env dt "clr").trace.filter isBuildToolInv
       = if env.exitCode (buildToolInv env dt "Clean") = 0
         then [buildToolInv env dt "Clean", buildToolInv env dt "Build"]
         else [buildToolInv env dt "Clean"])
    ∧ (env.exitCode (buildToolInv env dt "Clean") ≠ 0 →
        (build_extension env dt "clr").error
          = some { returncode := env.exitCode (buildToolInv env dt "Clean"),
                   cmd := buildCmdStr env dt "Clean", output := none }) := by
  constructor
  · rw [trace_filter_buildTool env dt, if_pos hr]
  · intro hc
    rw [build_extension, if_neg (by simp), build_clr_of_restore_ok env dt hr,
        afterRestore_clean_fail env dt _ hc]

/-- C1: witness — in `envC1` the Clean invocation fails, so only one build-tool
invocation appears in the trace and the surfaced error is the uncaptured-output
CalledProcessError. -/
theorem C1_clean_then_build_witness :
    ((build_extension envC1 DevTools.Mono "clr").trace.filter isBuildToolInv
       = if envC1.exitCode (buildToolInv envC1 DevTools.Mono "Clean") = 0
         then [buildToolInv envC1 DevTools.Mono "Clean", buildToolInv envC1 DevTools.Mono "Build"]
         else [buildToolInv envC1 DevTools.Mono "Clean"])
    ∧ (envC1.exitCode (buildToolInv envC1 DevTools.Mono "Clean") ≠ 0 →
        (build_extension envC1 DevTools.Mono "clr").error
          = some { returncode := envC1.exitCode (buildToolInv envC1 DevTools.Mono "Clean"),
                   cmd := buildCmdStr envC1 DevTools.Mono "Clean", output := none }) :=
  C1_clean_then_build envC1 DevTools.Mono (by rfl)

/-- C1: counterexample — the Clean step of `envC1` fails after printing "boom",
yet the surfaced error's output field is `none`; the error does not carry the
tool's output, contradicting the claim as stated. -/
theorem C1_counterexample :
    (build_extension envC1 DevTools.Mono "clr").error.map CalledProcessError.output = some none
    ∧ envC1.out (buildToolInv envC1 DevTools.Mono "Clean") = "boom"
    ∧ (build_extension envC1 DevTools.Mono "clr").error.map CalledProcessError.output
        ≠ some (some (envC1.out (buildToolInv envC1 DevTools.Mono "Clean"))) :=
  ⟨rfl, rfl, by decide⟩

/-- Environment with the two toolchain-reserved subproject directories, each
holding a package manifest. -/
def envC2 : Env := { envBase with srcDirs := ["clrmodule", "monoclr"] }

/-- C2: with every restore succeeding, `_install_packages` issues exactly one
restore invocation — manifest path plus shared `packages` output directory —
for each immediate subdirectory of `src` that is neither reserved for the
inactive toolchain variant nor lacking a `packages.config` manifest, in
listing order, and for no other subdirectory. -/
theorem C2_restore_eligibility (env : Env) (dt : DevTools)
    (h : ∀ d, env.exitCode (Invocation.restore (manifestPath dt d) "packages") = 0) :
    installPackages env dt
      = ((env.srcDirs.filter
            (fun d => !skipDir dt d && env.hasManifest (manifestPath dt d))).map
          (fun d => Invocation.restore (manifestPath dt d) "packages"), none) :=
  installPackagesGo_all_ok env dt h env.srcDirs

/-- C2: witness — with subprojects `clrmodule` (reserved to MsDev) and
`monoclr` (reserved to Mono), each holding a manifest, the MsDev run issues
exactly one restore invocation, targeting `clrmodule`. -/
theorem C2_restore_eligibility_witness :
    installPackages envC2 DevTools.MsDev
      = ([Invocation.restore (manifestPath DevTools.MsDev "clrmodule") "packages"], none) :=
  (C2_restore_eligibility envC2 DevTools.MsDev (fun _ => rfl)).trans (by rfl)

/-- C3: when the build output directory exists, the installer copies exactly
the files whose names match the fixed patterns `clr.*` or `Python.Runtime.*`,
keeping their names, and no other file, whatever else is present. -/
theorem C3_installed_set (installDirExists : Bool) (files : List String) (f : String) :
    f ∈ (install true installDirExists files).copied
      ↔ f ∈ files ∧ (globMatch "clr.*" f = true ∨ globMatch "Python.Runtime.*" f = true) := by
  simp [install, copiedFiles, installPatterns, List.mem_filter, and_or_left]

/-- C4: when the build output directory does not exist, install returns having
copied nothing, with the warning issued and without creating the install
directory, whatever the other inputs are. -/
theorem C4_install_missing_dir (installDirExists : Bool) (files : List String) :
    install false installDirExists files
      = { warned := true, createdInstallDir := false, copied := [] } := rfl

/-- C5: whenever `_build_monoclr` is entered, the variant is Mono, the
extension is `clr`, package restore succeeded, and both the Clean and the
Build invocation exited zero; the shim build runs after them in the trace and
only appends its outputs to the build output directory contents. -/
theorem C5_monoclr_gating (env : Env) (dt : DevTools) (extName : String)
    (h : (build_extension env dt extName).monoclrRan = true) :
    dt = DevTools.Mono ∧ extName = "clr"
    ∧ (installPackages env dt).2 = none
    ∧ env.exitCode (buildToolInv env dt "Clean") = 0
    ∧ env.exitCode (buildToolInv env dt "Build") = 0
    ∧ (build_extension env dt extName).trace
        = ((installPackages env dt).1
            ++ [buildToolInv env dt "Clean", buildToolInv env dt "Build"])
          ++ (build_monoclr env).trace
    ∧ (build_extension env dt extName).outDirFiles
        = (env.outDirFiles0 ++ env.solutionOutputs) ++ (build_monoclr env).wrote := by
  by_cases he : extName = "clr"
  · subst he
    rw [build_extension, if_neg (by simp)] at h ⊢
    rcases hp : (installPackages env dt).2 with _ | e
    · rw [build_clr_of_restore_ok env dt hp] at h ⊢
      by_cases hc : env.exitCode (buildToolInv env dt "Clean") = 0
      · by_cases hb : env.exitCode (buildToolInv env dt "Build") = 0
        · cases dt with
          | MsDev =>
            rw [afterRestore_ok_msdev env _ hc hb] at h
            simp at h
          | Mono =>
            rw [afterRestore_ok_mono env _ hc hb]
            exact ⟨rfl, rfl, rfl, hc, hb, rfl, rfl⟩
        · rw [afterRestore_build_fail env dt _ hc hb] at h
          simp at h
      · rw [afterRestore_clean_fail env dt _ hc] at h
        simp at h
    · rw [build_clr_of_restore_err env dt e hp] at h
      simp at h
  · rw [build_extension, if_pos he] at h
    simp at h

/-- C5: witness — the all-success Mono run does enter the shim build, after
the Clean and Build invocations, appending to the output directory. -/
theorem C5_monoclr_gating_witness :
    DevTools.Mono = DevTools.Mono ∧ "clr" = "clr"
    ∧ (installPackages envBase DevTools.Mono).2 = none
    ∧ envBase.exitCode (buildToolInv envBase DevTools.Mono "Clean") = 0
    ∧ envBase.exitCode (buildToolInv envBase DevTools.Mono "Build") = 0
    ∧ (build_extension envBase DevTools.Mono "clr").trace
        = ((installPackages envBase DevTools.Mono).1
            ++ [buildToolInv envBase DevTools.Mono "Clean",
                buildToolInv envBase DevTools.Mono "Build"])
          ++ (build_monoclr envBase).trace
    ∧ (build_extension envBase DevTools.Mono "clr").outDirFiles
        = (envBase.outDirFiles0 ++ envBase.solutionOutputs) ++ (build_monoclr envBase).wrote :=
  C5_monoclr_gating envBase DevTools.Mono "clr" (by rfl)

/-- Environment whose nuget restore fails with exit code 3 after printing
"nuget exploded". -/
def envC6 : Env :=
  { envBase with
    srcDirs := ["clrmodule"],
    exitCode := fun inv =>
      match inv with
      | Invocation.restore _ _ => 3
      | _ => 0,
    out := fun _ => "nuget exploded" }

/-- C6: counterexample — a failing restore in `envC6` prints "nuget exploded",
yet the surfaced error's output field is `none`: restore/clean/build failures
do not carry the tool's output, contradicting the claim as stated. -/
theorem C6_counterexample :
    (build_extension envC6 DevTools.MsDev "clr").error.map CalledProcessError.output = some none
    ∧ envC6.out (Invocation.restore (manifestPath DevTools.MsDev "clrmodule") "packages")
        = "nuget exploded"
    ∧ (build_extension envC6 DevTools.MsDev "clr").error.map CalledProcessError.output
        ≠ some (some (envC6.out
            (Invocation.restore (manifestPath DevTools.MsDev "clrmodule") "packages"))) :=
  ⟨rfl, rfl, by decide⟩

/-- C6: (amended) every surfaced process-failure error carries the captured
exit code and the failed command line; the errors raised by `_check_output`
(the system-config queries) additionally carry the tool's captured output,
while the errors raised through `check_call` (restore, clean, build) carry no
captured output. -/
theorem C6_error_payload (env : Env) (inv : Invocation) (cmd : String)
    (e : CalledProcessError) :
    (check_call env inv cmd = Except.error e →
        e = { returncode := env.exitCode inv, cmd := cmd, output := none }
          ∧ env.exitCode inv ≠ 0)
    ∧ (check_output env inv cmd = Except.error e →
        e = { returncode := env.exitCode inv, cmd := cmd, output := some (env.out inv) }
          ∧ env.exitCode inv ≠ 0) := by
  constructor
  · intro h
    unfold check_call at h
    by_cases hz : env.exitCode inv = 0
    · rw [if_pos hz] at h
      cases h
    · rw [if_neg hz] at h
      injection h with h2
      exact ⟨h2.symm, hz⟩
  · intro h
    unfold check_output at h
    by_cases hz : env.exitCode inv = 0
    · rw [if_pos hz] at h
      cases h
    · rw [if_neg hz] at h
      injection h with h2
      exact ⟨h2.symm, hz⟩

/-- Environment whose pkg-config queries fail with exit code 5 after printing
"zap". -/
def envC6q : Env :=
  { envBase with
    exitCode := fun inv =>
      match inv with
      | Invocation.pkgConfig _ _ => 5
      | _ => 0,
    out := fun _ => "zap" }

/-- C6: witness — a concrete failing pkg-config query yields the error carrying
exit code 5 and the captured output "zap". -/
theorem C6_error_payload_witness :
    ({ returncode := 5, cmd := pkgConfigCmd "--libs" "mono-2", output := some "zap" }
        : CalledProcessError)
      = { returncode := envC6q.exitCode (Invocation.pkgConfig "--libs" "mono-2"),
          cmd := pkgConfigCmd "--libs" "mono-2",
          output := some (envC6q.out (Invocation.pkgConfig "--libs" "mono-2")) }
    ∧ envC6q.exitCode (Invocation.pkgConfig "--libs" "mono-2") ≠ 0 :=
  (C6_error_payload envC6q (Invocation.pkgConfig "--libs" "mono-2")
      (pkgConfigCmd "--libs" "mono-2")
      { returncode := 5, cmd := pkgConfigCmd "--libs" "mono-2", output := some "zap" }).2
    (by rfl)

/-- C7: every build-tool invocation of the clr orchestration passes the defines
as the ordered pair of the `PYTHON<major><minor>` token and the unicode-width
token (`UCS2` below 0x10FFFF, else `UCS4`), joined with the profile's define
separator, which is ";" for MsDev and "," for Mono. -/
theorem C7_defines_tokens (env : Env) (dt : DevTools) (inv : Invocation)
    (hinv : inv ∈ (build_extension env dt "clr").trace)
    (hbt : isBuildToolInv inv = true) :
    (∃ target, (target = "Clean" ∨ target = "Build")
       ∧ inv = Invocation.buildTool target (configName dt) env.platform
           (String.intercalate (definesSep dt)
             ["PYTHON" ++ toString env.pyMajor ++ toString env.pyMinor,
              if env.maxunicode < 0x10FFFF then "UCS2" else "UCS4"])
           env.destDirAbs VERBOSITY)
    ∧ definesSep DevTools.MsDev = ";" ∧ definesSep DevTools.Mono = "," := by
  have hmem : inv ∈ (build_extension env dt "clr").trace.filter isBuildToolInv :=
    List.mem_filter.mpr ⟨hinv, hbt⟩
  rw [trace_filter_buildTool env dt] at hmem
  refine ⟨?_, rfl, rfl⟩
  by_cases hr : (installPackages env dt).2 = none
  · rw [if_pos hr] at hmem
    by_cases hc : env.exitCode (buildToolInv env dt "Clean") = 0
    · rw [if_pos hc] at hmem
      simp only [List.mem_cons, List.not_mem_nil, or_false] at hmem
      rcases hmem with rfl | rfl
      · exact ⟨"Clean", Or.inl rfl, by simp [buildToolInv, definesList_eq]⟩
      · exact ⟨"Build", Or.inr rfl, by simp [buildToolInv, definesList_eq]⟩
    · rw [if_neg hc] at hmem
      simp only [List.mem_cons, List.not_mem_nil, or_false] at hmem
      subst hmem
      exact ⟨"Clean", Or.inl rfl, by simp [buildToolInv, definesList_eq]⟩
  · rw [if_neg hr] at hmem
    simp at hmem

/-- C7: witness — the Clean invocation of the all-success Mono run carries the
comma-joined `PYTHON27,UCS2` define string. -/
theorem C7_defines_tokens_witness :
    (∃ target, (target = "Clean" ∨ target = "Build")
       ∧ buildToolInv envBase DevTools.Mono "Clean"
           = Invocation.buildTool target (configName DevTools.Mono) envBase.platform
               (String.intercalate (definesSep DevTools.Mono)
                 ["PYTHON" ++ toString envBase.pyMajor ++ toString envBase.pyMinor,
                  if envBase.maxunicode < 0x10FFFF then "UCS2" else "UCS4"])
               envBase.destDirAbs VERBOSITY)
    ∧ definesSep DevTools.MsDev = ";" ∧ definesSep DevTools.Mono = "," :=
  C7_defines_tokens envBase DevTools.Mono (buildToolInv envBase DevTools.Mono "Clean")
    (by decide) rfl

/-- Environment with distinct pkg-config outputs per query. -/
def envC8 : Env :=
  { envBase with
    out := fun inv =>
      match inv with
      | Invocation.pkgConfig "--libs" "mono-2" => " -lmono-2 "
      | Invocation.pkgConfig "--cflags" "mono-2" => " -I/usr/include/mono "
      | Invocation.pkgConfig "--libs" "glib-2.0" => " -lglib-2.0 "
      | Invocation.pkgConfig "--cflags" "glib-2.0" => " -I/usr/include/glib "
      | _ => "" }

/-- C8: with all queries succeeding, the flag-discovery step queries pkg-config
for mono-2 then glib-2.0 — for each, once for link flags and once for compile
flags — and the trimmed per-category outputs are concatenated space-joined in
library order into the compile-flag and the link-flag string. -/
theorem C8_flag_discovery (env : Env)
    (h1 : env.exitCode (Invocation.pkgConfig "--libs" "mono-2") = 0)
    (h2 : env.exitCode (Invocation.pkgConfig "--cflags" "mono-2") = 0)
    (h3 : env.exitCode (Invocation.pkgConfig "--libs" "glib-2.0") = 0)
    (h4 : env.exitCode (Invocation.pkgConfig "--cflags" "glib-2.0") = 0) :
    (build_monoclr env).trace
      = [Invocation.pkgConfig "--libs" "mono-2", Invocation.pkgConfig "--cflags" "mono-2",
         Invocation.pkgConfig "--libs" "glib-2.0", Invocation.pkgConfig "--cflags" "glib-2.0"]
    ∧ (build_monoclr env).cflags
        = some ((env.out (Invocation.pkgConfig "--cflags" "mono-2")).trim ++ " "
            ++ (env.out (Invocation.pkgConfig "--cflags" "glib-2.0")).trim)
    ∧ (build_monoclr env).libs
        = some ((env.out (Invocation.pkgConfig "--libs" "mono-2")).trim ++ " "
            ++ (env.out (Invocation.pkgConfig "--libs" "glib-2.0")).trim) := by
  rw [build_monoclr_ok env h1 h2 h3 h4]
  exact ⟨rfl, rfl, rfl⟩

/-- C8: witness — concrete query outputs are trimmed and concatenated in
library order. -/
theorem C8_flag_discovery_witness :
    (build_monoclr envC8).trace
      = [Invocation.pkgConfig "--libs" "mono-2", Invocation.pkgConfig "--cflags" "mono-2",
         Invocation.pkgConfig "--libs" "glib-2.0", Invocation.pkgConfig "--cflags" "glib-2.0"]
    ∧ (build_monoclr envC8).cflags
        = some ((envC8.out (Invocation.pkgConfig "--cflags" "mono-2")).trim ++ " "
            ++ (envC8.out (Invocation.pkgConfig "--cflags" "glib-2.0")).trim)
    ∧ (build_monoclr envC8).libs
        = some ((envC8.out (Invocation.pkgConfig "--libs" "mono-2")).trim ++ " "
            ++ (envC8.out (Invocation.pkgConfig "--libs" "glib-2.0")).trim) :=
  C8_flag_discovery envC8 rfl rfl rfl rfl

/-- C9: the script relocator keeps the script list's length and rewrites each
script to the path inside the build output directory exactly when a same-named
file exists there, leaving it unchanged otherwise. -/
theorem C9_script_relocation (sep outputDir : String)
    (outDirContents scripts : List String) (i : Nat) :
    (fixupScripts sep outputDir outDirContents scripts).length = scripts.length
    ∧ (fixupScripts sep outputDir outDirContents scripts)[i]?
        = (scripts[i]?).map
            (fun script => if outDirContents.contains script
                           then outputDir ++ sep ++ script else script) := by
  constructor
  · simp [fixupScripts]
  · simp [fixupScripts]

/-- C10: any extension other than `clr` performs none of the orchestration: no
restore, no build-tool invocation, no shim build, no error, the output
directory untouched — the run only delegates to the stock builder. -/
theorem C10_non_clr_delegates (env : Env) (dt : DevTools) (extName : String)
    (h : extName ≠ "clr") :
    build_extension env dt extName
      = { stockDelegated := true, trace := [], error := none, monoclrRan := false,
          outDirFiles := env.outDirFiles0 } := by
  rw [build_extension, if_pos h]

/-- C10: witness — building the extension `foo` delegates and orchestrates
nothing. -/
theorem C10_non_clr_delegates_witness :
    build_extension envBase DevTools.MsDev "foo"
      = { stockDelegated := true, trace := [], error := none, monoclrRan := false,
          outDirFiles := envBase.outDirFiles0 } :=
  C10_non_clr_delegates envBase DevTools.MsDev "foo" (by decide)


end PythonNet
